import Mathlib

/-!
Verification of the cliapp command-line argument binding engine
(`cliapp.go`) against its natural-language specification.

The Go source is shallowly embedded: each Go function is translated into a
Lean definition of the same name, with Go maps modelled as association
lists (prepend-insert + first-match lookup reproduces Go's
last-assignment-wins overwrite), Go's `reflect`-level struct values
modelled as lists of optional `Value`s (a `none` entry is a nil pointer
field), and errors modelled as a structured `CliError` mirroring the
`fmt.Errorf` wrapping layers of the source.

Scope notes:
  * `float64` parameters/fields are outside this embedding's domain (IEEE-754
    floating point is not modelled); the type universe `PrimTy` covers the
    remaining supported kinds plus `other` for the `default:` branch of
    `parseValue`.
  * `unicode.IsUpper` / whitespace classification are modelled over ASCII,
    which agrees with Go on the identifier/command names that occur here.
  * Output sinks are modelled as a list of abstract output events; the text
    bodies of the help printers are abstracted into single events since no
    claim concerns their contents.
-/

namespace Cliapp

/-- Supported primitive kinds of `parseValue` (`cliapp.go:523`), minus
`float64` (floating point, unmodelled); `other` stands for any kind hitting
the `default:` branch. -/
inductive PrimTy where
  | string
  | int
  | int64
  | bool
  | other (name : String)
deriving DecidableEq, BEq, Repr

/-- A coerced runtime value; `zeroOther` is the zero value of an
unsupported-kind field (such a field can never be successfully set). -/
inductive Value where
  | str (s : String)
  | int (n : Int)
  | int64 (n : Int)
  | bool (b : Bool)
  | zeroOther
deriving DecidableEq, Repr

/-- Structured model of the errors produced in `cliapp.go`; constructors with
a nested `CliError` model the `fmt.Errorf("...: %w", err)` wrapping layers. -/
inductive CliError where
  | unknownCommand (tok : String)
  | unknownOption (tok : String)
  | argCountMismatch (cmd : String) (want got : Nat)
  | notEnoughArgs (cmd : String) (want got : Nat)
  | parseArgFailed (idx : Nat) (cmd : String) (e : CliError)
  | structParseFailed (idx : Nat) (cmd : String) (e : CliError)
  | positionalParseFailed (pos : Int) (e : CliError)
  | malformedValue (tok : String) (ty : PrimTy)
  | unsupportedType (tyName : String)
  | insufficientPositional (pos : Int)
  | optionParseFailed (name : String) (e : CliError)
  | missingOptionValue (name : String)
  | handlerErr (msg : String)
deriving DecidableEq, Repr

/-- A struct field together with its tags, modelling one
`reflect.StructField` as consumed by `buildFieldMaps` (`cliapp.go:603`).
`ty` is the element kind (for a pointer field, the pointee's kind) and
`isPtr` marks pointer (nullable) fields. -/
structure Field where
  name : String
  ty : PrimTy
  isPtr : Bool
  argTag : Option String
  longTag : Option String
  shortTag : Option String
deriving DecidableEq, Repr

/-- A struct value: one slot per field, in field order. `none` is a nil
pointer field; `some v` is a set pointer field or a (possibly zero-valued)
non-pointer field. -/
abbrev RecordVal := List (Option Value)

/-- ASCII model of `unicode.IsSpace` as used by `strings.Fields`. -/
def goIsSpace (c : Char) : Bool :=
  c = ' ' || c = '\t' || c = '\n' || c = '\r' || c = '\x0b' || c = '\x0c'

/-- Accumulator-style splitter behind `goFields`. -/
def goFieldsAux : List Char → List Char → List String
  | [], acc => if acc.isEmpty then [] else [String.mk acc.reverse]
  | c :: cs, acc =>
    if goIsSpace c then
      if acc.isEmpty then goFieldsAux cs []
      else String.mk acc.reverse :: goFieldsAux cs []
    else goFieldsAux cs (c :: acc)

/-- Model of `strings.Fields`: split around runs of whitespace. -/
def goFields (s : String) : List String :=
  goFieldsAux s.data []

/-- Model of `strings.HasPrefix(tok, "--")`. -/
def isLongTok (s : String) : Bool :=
  match s.data with
  | '-' :: '-' :: _ => true
  | _ => false

/-- Model of `strings.HasPrefix(tok, "-") && len(tok) >= 2`
(`cliapp.go:739`). -/
def isShortTok (s : String) : Bool :=
  match s.data with
  | '-' :: _ :: _ => true
  | _ => false

/-- Split a token at the first `'='` (model of `strings.Index(tok, "=")`
followed by the two slicings at `cliapp.go:700`). -/
def splitEqChars : List Char → Option (List Char × List Char)
  | [] => none
  | c :: cs =>
    if c = '=' then some ([], cs)
    else (splitEqChars cs).map (fun p => (c :: p.1, p.2))

/-- String-level wrapper of `splitEqChars`: `some (name, val)` when the token
contains an `'='`, where `name` is everything before the first `'='`
(including any leading dashes) and `val` everything after it. -/
def splitEq (s : String) : Option (String × String) :=
  (splitEqChars s.data).map (fun p => (String.mk p.1, String.mk p.2))

/-- Decimal digit accumulation for `goParseInt`. -/
def digitsValAux : List Char → Nat → Option Nat
  | [], acc => some acc
  | c :: cs, acc =>
    if '0' ≤ c && c ≤ '9' then digitsValAux cs (acc * 10 + (c.toNat - '0'.toNat))
    else none

/-- Model of `strconv.Atoi` / `strconv.ParseInt(s, 10, 64)`: optional sign,
then at least one decimal digit, rejecting values outside the signed 64-bit
range (Go reports `ErrRange` there, which the callers treat as failure). -/
def goParseInt (s : String) : Option Int :=
  match s.data with
  | [] => none
  | c :: cs =>
    let p : Bool × List Char :=
      if c = '-' then (true, cs)
      else if c = '+' then (false, cs)
      else (false, c :: cs)
    match p.2 with
    | [] => none
    | ds =>
      match digitsValAux ds 0 with
      | none => none
      | some n =>
        let v : Int := if p.1 then -(n : Int) else (n : Int)
        if v < -(9223372036854775808 : Int) ∨ v > (9223372036854775807 : Int) then none
        else some v

/-- Model of `strconv.ParseBool`: the twelve canonical spellings. -/
def goParseBool (s : String) : Option Bool :=
  if s = "1" ∨ s = "t" ∨ s = "T" ∨ s = "true" ∨ s = "TRUE" ∨ s = "True" then some true
  else if s = "0" ∨ s = "f" ∨ s = "F" ∨ s = "false" ∨ s = "FALSE" ∨ s = "False" then some false
  else none

/-- Character-list worker for `toKebab`; the flag is true at the first rune
(Go's `i > 0` test). -/
def toKebabAux : Bool → List Char → List Char
  | _, [] => []
  | isFirst, c :: cs =>
    if c.isUpper then
      (if isFirst then [c.toLower] else ['-', c.toLower]) ++ toKebabAux false cs
    else c :: toKebabAux false cs

/-- Model of `toKebab` (`cliapp.go:790`): CamelCase to kebab-case (ASCII). -/
def toKebab (s : String) : String :=
  String.mk (toKebabAux true s.data)

/-- Model of `parseValue` (`cliapp.go:524`): coerce one token to one kind. -/
def parseValue (s : String) (t : PrimTy) : Except CliError Value :=
  match t with
  | .string => .ok (.str s)
  | .int =>
    match goParseInt s with
    | some n => .ok (.int n)
    | none => .error (.malformedValue s .int)
  | .int64 =>
    match goParseInt s with
    | some n => .ok (.int64 n)
    | none => .error (.malformedValue s .int64)
  | .bool =>
    match goParseBool s with
    | some b => .ok (.bool b)
    | none => .error (.malformedValue s .bool)
  | .other name => .error (.unsupportedType name)

/-- First-match lookup in a string-keyed association list. Together with
prepend-insert this models Go map assignment (last write wins). -/
def lookupStr : List (String × Nat) → String → Option Nat
  | [], _ => none
  | (k, v) :: rest, key => if k = key then some v else lookupStr rest key

/-- First-match lookup in an integer-keyed association list. -/
def lookupInt : List (Int × Nat) → Int → Option Nat
  | [], _ => none
  | (k, v) :: rest, key => if k = key then some v else lookupInt rest key

/-- Prepend-insert; models Go map assignment `m[k] = v`. -/
def insertStr (m : List (String × Nat)) (k : String) (v : Nat) : List (String × Nat) :=
  (k, v) :: m

/-- Prepend-insert for the positional map `posFields`. -/
def insertInt (m : List (Int × Nat)) (k : Int) (v : Nat) : List (Int × Nat) :=
  (k, v) :: m

/-- The three lookup tables built by `buildFieldMaps` (`cliapp.go:603`). -/
structure FieldMaps where
  pos : List (Int × Nat)
  long : List (String × Nat)
  short : List (String × Nat)
deriving Repr

/-- One iteration of the field loop of `buildFieldMaps` for field `f` at
struct index `i`. -/
def buildFieldStep (m : FieldMaps) (i : Nat) (f : Field) : FieldMaps :=
  let m1 :=
    match f.argTag with
    | some v =>
      match goParseInt v with
      | some n => { m with pos := insertInt m.pos n i }
      | none => m
    | none =>
      let longName := match f.longTag with
        | some v => v
        | none => "--" ++ toKebab f.name
      let m' := { m with long := insertStr m.long longName i }
      match f.shortTag with
      | some v => { m' with short := insertStr m'.short v i }
      | none => m'
  let m2 :=
    match f.longTag with
    | some v => { m1 with long := insertStr m1.long v i }
    | none => m1
  match f.shortTag with
  | some v => { m2 with short := insertStr m2.short v i }
  | none => m2

/-- Model of `buildFieldMaps`: fold `buildFieldStep` over the fields in
struct order. -/
def buildFieldMaps (flds : List Field) : FieldMaps :=
  (flds.enum.foldl (fun m p => buildFieldStep m p.1 p.2) ⟨[], [], []⟩)

/-- Zero value of a kind (`reflect.New(t).Elem()` initialization). -/
def zeroVal : PrimTy → Value
  | .string => .str ""
  | .int => .int 0
  | .int64 => .int64 0
  | .bool => .bool false
  | .other _ => .zeroOther

/-- Fresh struct value: zero values for plain fields, nil for pointers. -/
def initRecord (flds : List Field) : RecordVal :=
  flds.map fun f => if f.isPtr then none else some (zeroVal f.ty)

/-- Model of `parseAndSetField` (`cliapp.go:558`): coerce `value` to the
field's element kind and store it. The `none` branch is unreachable for the
indices produced by `buildFieldMaps`, which are always in range. -/
def parseAndSetField (flds : List Field) (sv : RecordVal) (fi : Nat) (value : String) :
    Except CliError RecordVal :=
  match flds[fi]? with
  | none => .error (.malformedValue value (.other "missing-field"))
  | some f =>
    match parseValue value f.ty with
    | .error e => .error e
    | .ok v => .ok (sv.set fi (some v))

/-- Model of `setBoolField` (`cliapp.go:584`): set a bool/`*bool` field true. -/
def setBoolAt (sv : RecordVal) (fi : Nat) : RecordVal :=
  sv.set fi (some (.bool true))

/-- Model of `isBoolField` (`cliapp.go:597`): bool or pointer-to-bool. -/
def isBoolFieldAt (flds : List Field) (fi : Nat) : Bool :=
  match flds[fi]? with
  | some f => f.ty == .bool
  | none => false

/-- Highest declared positional index, starting from Go's `max := -1`
(`cliapp.go:668`); order-independent, so folding the association list in
insertion order models the unordered Go map range. -/
def maxKeyI : List (Int × Nat) → Int
  | [] => -1
  | (k, _) :: rest => max k (maxKeyI rest)

/-- The ascending position sequence `0..=max` of the Go loop at
`cliapp.go:675`; empty when no nonnegative position is declared. -/
def posPositions (pos : List (Int × Nat)) : List Int :=
  if maxKeyI pos < 0 then []
  else (List.range (maxKeyI pos + 1).toNat).map Int.ofNat

/-- The positional loop body of `parseStructArgs` (`cliapp.go:675-690`):
walk the position sequence, consuming one token per registered position. -/
def posLoop (pos : List (Int × Nat)) (flds : List Field) (raw : List String) :
    RecordVal → Nat → List Int → Except CliError (RecordVal × Nat)
  | sv, consumed, [] => .ok (sv, consumed)
  | sv, consumed, p :: ps =>
    match lookupInt pos p with
    | none => posLoop pos flds raw sv consumed ps
    | some fi =>
      match raw[consumed]? with
      | none => .error (.insufficientPositional p)
      | some tok =>
        match parseAndSetField flds sv fi tok with
        | .error e => .error (.positionalParseFailed p e)
        | .ok sv2 => posLoop pos flds raw sv2 (consumed + 1) ps

/-- The positional phase of `parseStructArgs` (`cliapp.go:666-691`),
including the `len(posFields) > 0` guard. -/
def posPhase (pos : List (Int × Nat)) (flds : List Field) (raw : List String)
    (sv0 : RecordVal) : Except CliError (RecordVal × Nat) :=
  if pos.isEmpty then .ok (sv0, 0)
  else posLoop pos flds raw sv0 0 (posPositions pos)

/-- The option-scan loop of `parseStructArgs` (`cliapp.go:694-766`): long
`--name=val` / `--name` forms, short `-x` forms, flag handling, and the
break on the first non-option token. -/
def optionScan (lm sm : List (String × Nat)) (flds : List Field) :
    RecordVal → List String → Except CliError RecordVal
  | sv, [] => .ok sv
  | sv, tok :: rest =>
    if isLongTok tok then
      match splitEq tok with
      | some (name, val) =>
        match lookupStr lm name with
        | some fi =>
          match parseAndSetField flds sv fi val with
          | .error e => .error (.optionParseFailed name e)
          | .ok sv2 => optionScan lm sm flds sv2 rest
        | none => optionScan lm sm flds sv rest
      | none =>
        match lookupStr lm tok with
        | some fi =>
          if isBoolFieldAt flds fi then optionScan lm sm flds (setBoolAt sv fi) rest
          else
            match rest with
            | [] => .error (.missingOptionValue tok)
            | v :: rest2 =>
              match parseAndSetField flds sv fi v with
              | .error e => .error (.optionParseFailed tok e)
              | .ok sv2 => optionScan lm sm flds sv2 rest2
        | none => .error (.unknownOption tok)
    else if isShortTok tok then
      match lookupStr sm tok with
      | some fi =>
        if isBoolFieldAt flds fi then optionScan lm sm flds (setBoolAt sv fi) rest
        else
          match rest with
          | [] => .error (.missingOptionValue tok)
          | v :: rest2 =>
            match parseAndSetField flds sv fi v with
            | .error e => .error (.optionParseFailed tok e)
            | .ok sv2 => optionScan lm sm flds sv2 rest2
      | none => .error (.unknownOption tok)
    else .ok sv

/-- Model of `parseStructArgs` (`cliapp.go:652-769`). Note: exactly as in the
source, the returned count is the `consumed` value of the positional phase;
the option scan advances its own local index `i` without ever folding it
back into `consumed` (`cliapp.go:768`). -/
def parseStructArgs (raw : List String) (flds : List Field) :
    Except CliError (RecordVal × Nat) :=
  let maps := buildFieldMaps flds
  match posPhase maps.pos flds raw (initRecord flds) with
  | .error e => .error e
  | .ok (sv, consumed) =>
    match optionScan maps.long maps.short flds sv (raw.drop consumed) with
    | .error e => .error e
    | .ok sv2 => .ok (sv2, consumed)

/-- A declared handler parameter type: a primitive kind, or a struct
(possibly behind a pointer) with its field list. -/
inductive ParamTy where
  | prim (t : PrimTy)
  | record (flds : List Field) (isPtr : Bool)

/-- A bound argument handed to a handler. -/
inductive Arg where
  | val (v : Value)
  | recArg (r : RecordVal) (isPtr : Bool)
deriving DecidableEq, Repr

/-- Model of the `handler` struct (`cliapp.go:14`): parameter types, the
error-expectation flag derived at registration, help text, and the function
itself, abstracted to its returned error (`none` = nil error; handlers that
declare no error-like result simply always return `none`). -/
structure Handler where
  targs : List ParamTy
  expectsError : Bool
  help : String
  fn : List Arg → Option String

/-- Model of `Options` (`cliapp.go:29`); the two sinks are abstracted into
the output-event list of `RunResult`. -/
structure GoOptions where
  exitOnError : Bool

/-- Model of `App` (`cliapp.go:22`): the registry is an association list
whose order stands for the (unordered) Go map iteration order. -/
structure App where
  cmds : List (String × Handler)
  root : Option Handler
  opts : GoOptions

/-- What `Run` did, beyond its return value: `ok` is a nil-error return,
`exited` is an `os.Exit` request issued by `handleError`, and `failed e` is
a non-nil error returned to the caller. -/
inductive Outcome where
  | ok
  | exited (code : Nat)
  | failed (e : CliError)
deriving DecidableEq, Repr

/-- Abstract writes to the output sinks: a `printCommandHelp name` block, a
`printHelp` (global help) block, or `handleError`'s error line. -/
inductive OutEvent where
  | commandHelp (name : String)
  | globalHelp
  | errMsg (e : CliError)
deriving DecidableEq, Repr

/-- The observable result of one `Run` call: its outcome, the sink writes,
and whether the handler function was invoked (`h.fn.Call`). -/
structure RunResult where
  outcome : Outcome
  output : List OutEvent
  invoked : Bool
deriving DecidableEq, Repr

/-- Model of `handleError` (`cliapp.go:274`): with `ExitOnError` the message
is written to the error sink and exit(1) is requested; otherwise the error
is returned. -/
def handleError (opts : GoOptions) (e : CliError) : Outcome × List OutEvent :=
  if opts.exitOnError then (.exited 1, [.errMsg e]) else (.failed e, [])

/-- A `Run` result produced through `handleError`; the handler was not
invoked on this path. -/
def errResult (opts : GoOptions) (e : CliError) : RunResult :=
  ⟨(handleError opts e).1, (handleError opts e).2, false⟩

/-- The help rendering used for empty input and pre-command help triggers
(`cliapp.go:118-138`): root-specific help when a root handler exists,
global help otherwise. -/
def helpResult (a : App) : RunResult :=
  match a.root with
  | some _ => ⟨.ok, [.commandHelp ""], false⟩
  | none => ⟨.ok, [.globalHelp], false⟩

/-- Token-by-token prefix comparison of a registered name's tokens against
the input (`cliapp.go:154-159`). -/
def tokensLead : List String → List String → Bool
  | [], _ => true
  | _ :: _, [] => false
  | t :: ts, a :: as => t == a && tokensLead ts as

/-- One iteration of the longest-prefix matching loop (`cliapp.go:144-165`).
`none` as accumulator stands for `bestLen == 0`. -/
def resolveStep (args : List String) (best : Option (Nat × String × Handler))
    (nh : String × Handler) : Option (Nat × String × Handler) :=
  let tokens := goFields nh.1
  if tokens.isEmpty then best
  else if args.length < tokens.length then best
  else if tokensLead tokens args then
    match best with
    | none => some (tokens.length, nh.1, nh.2)
    | some b => if tokens.length > b.1 then some (tokens.length, nh.1, nh.2) else best
  else best

/-- The longest-prefix command resolution loop of `Run`: fold over the
registry entries (list order standing for map iteration order). -/
def resolve (args : List String) (cmds : List (String × Handler)) :
    Option (Nat × String × Handler) :=
  cmds.foldl (resolveStep args) none

/-- Resolution plus the root fallback (`cliapp.go:167-176`): the selected
command name, handler and matched token count, or `none` when nothing
matches and no root handler exists. -/
def resolveSel (a : App) (args : List String) : Option (String × Handler × Nat) :=
  match resolve args a.cmds with
  | some (blen, name, h) => some (name, h, blen)
  | none =>
    match a.root with
    | some h => some ("(root)", h, 0)
    | none => none

/-- Whether any declared parameter is a struct or pointer-to-struct
(`cliapp.go:192-198`). -/
def usesStruct (targs : List ParamTy) : Bool :=
  targs.any fun t =>
    match t with
    | .record _ _ => true
    | .prim _ => false

/-- `parseValue` applied to a declared parameter type: a struct kind hits the
`default:` branch of the Go switch (unreachable in positional mode, which is
guarded by `usesStruct`). -/
def parseValueParam (s : String) (t : ParamTy) : Except CliError Value :=
  match t with
  | .prim pt => parseValue s pt
  | .record _ _ => .error (.unsupportedType "struct")

/-- The unknown-option pre-check of positional mode (`cliapp.go:243-247`):
first token starting with `--`, if any. -/
def findLongTok : List String → Option String
  | [] => none
  | a :: rest => if isLongTok a then some a else findLongTok rest

/-- The coercion loop of positional mode (`cliapp.go:252-258`); the
lists have equal length when this is reached (checked at `cliapp.go:248`),
so the second base case is unreachable. -/
def coerceEach (name : String) : Nat → List ParamTy → List String → Except CliError (List Arg)
  | _, [], _ => .ok []
  | _, _ :: _, [] => .ok []
  | i, t :: ts, s :: ss =>
    match parseValueParam s t with
    | .error e => .error (.parseArgFailed (i + 1) name e)
    | .ok v =>
      match coerceEach name (i + 1) ts ss with
      | .error e => .error e
      | .ok rest => .ok (.val v :: rest)

/-- Positional ("no struct parameter") binding mode (`cliapp.go:241-259`):
reject any `--` token, then check arity, then coerce each token. -/
def bindPositionalMode (name : String) (targs : List ParamTy) (rawArgs : List String) :
    Except CliError (List Arg) :=
  match findLongTok rawArgs with
  | some a => .error (.unknownOption a)
  | none =>
    if rawArgs.length ≠ targs.length then
      .error (.argCountMismatch name targs.length rawArgs.length)
    else coerceEach name 0 targs rawArgs

/-- Struct ("record") binding mode (`cliapp.go:200-239`): walk the parameter
list with a shared cursor `ri` into `rawArgs`; a struct parameter consumes
whatever `parseStructArgs` reports, a primitive parameter consumes one
token. `i` is the 0-based parameter index used in error messages. -/
def bindStructLoop (name : String) (total : Nat) (rawArgs : List String) :
    Nat → Nat → List ParamTy → Except CliError (List Arg)
  | _, _, [] => .ok []
  | ri, i, .record flds isPtr :: ts =>
    match parseStructArgs (rawArgs.drop ri) flds with
    | .error e => .error (.structParseFailed (i + 1) name e)
    | .ok (sv, nused) =>
      match bindStructLoop name total rawArgs (ri + nused) (i + 1) ts with
      | .error e => .error e
      | .ok rest => .ok (.recArg sv isPtr :: rest)
  | ri, i, .prim pt :: ts =>
    match rawArgs[ri]? with
    | none => .error (.notEnoughArgs name total rawArgs.length)
    | some tok =>
      match parseValue tok pt with
      | .error e => .error (.parseArgFailed (i + 1) name e)
      | .ok v =>
        match bindStructLoop name total rawArgs (ri + 1) (i + 1) ts with
        | .error e => .error e
        | .ok rest => .ok (.val v :: rest)

/-- Argument binding dispatch of `Run` (`cliapp.go:187-259`). -/
def bindArgs (name : String) (targs : List ParamTy) (rawArgs : List String) :
    Except CliError (List Arg) :=
  if usesStruct targs then bindStructLoop name targs.length rawArgs 0 0 targs
  else bindPositionalMode name targs rawArgs

/-- The post-call error inspection (`cliapp.go:261-271`): the function is
called; only when the handler declares an error-like trailing result is a
non-nil result propagated — directly, not through `handleError`. -/
def invokeHandler (h : Handler) (parsed : List Arg) : RunResult :=
  let res := h.fn parsed
  if h.expectsError then
    match res with
    | some msg => ⟨.failed (.handlerErr msg), [], true⟩
    | none => ⟨.ok, [], true⟩
  else ⟨.ok, [], true⟩

/-- Per-command help trigger (`cliapp.go:181-186`). -/
def firstIsHelp (l : List String) : Bool :=
  match l with
  | [] => false
  | t :: _ => t = "-h" || t = "--help"

/-- The tail of `Run` after command selection: per-command help, binding,
error handling, and handler invocation. -/
def runWith (a : App) (name : String) (h : Handler) (rawArgs : List String) : RunResult :=
  if firstIsHelp rawArgs then ⟨.ok, [.commandHelp name], false⟩
  else
    match bindArgs name h.targs rawArgs with
    | .error e => errResult a.opts e
    | .ok parsed => invokeHandler h parsed

/-- Pre-command help trigger (`cliapp.go:130`). -/
def isGlobalHelpTok (s : String) : Bool :=
  s = "-h" || s = "--help" || s = "help"

/-- Model of `App.Run` (`cliapp.go:113-272`) on an explicit token list (the
`args == nil → os.Args[1:]` acquisition is external to the core). -/
def run (a : App) (args : List String) : RunResult :=
  match args with
  | [] => helpResult a
  | first :: _ =>
    if isGlobalHelpTok first then helpResult a
    else
      match resolveSel a args with
      | none => errResult a.opts (.unknownCommand first)
      | some (name, h, blen) => runWith a name h (args.drop blen)

/-- A single option-only field (long name `--out`, string) used to exhibit
the consumed-count behavior of `parseStructArgs`. -/
def outOnlyField : Field :=
  ⟨"Out", .string, false, none, some "--out", none⟩

/-- C1: for the record type with the single option field `--out` and tokens
`["--out", "v"]`, `parseStructArgs` processes both tokens during the option
scan (the field is bound to "v") yet reports a consumed count of 0, because
the option scan never adds its processed tokens to `consumed`; the claimed
count (positional + option scan) would be 2. -/
theorem c1_consumed_ignores_option_scan :
    parseStructArgs ["--out", "v"] [outOnlyField] =
      .ok ([some (Value.str "v")], 0) := by
  rfl

/-- C2: with both a one-token path `"a"` and a two-token path `"a b"`
registered (in either map-iteration order), resolving an input beginning
`["a", "b", ...]` selects the two-token handler and reports a matched
length of 2. -/
theorem c2_longest_path_wins (h1 h2 : Handler) (rest : List String)
    (cmds : List (String × Handler))
    (horder : cmds = [("a", h1), ("a b", h2)] ∨ cmds = [("a b", h2), ("a", h1)]) :
    resolve ("a" :: "b" :: rest) cmds = some (2, "a b", h2) := by
  have hga : goFields "a" = ["a"] := rfl
  have hgab : goFields "a b" = ["a", "b"] := rfl
  have hlt : ¬ (rest.length + 1 + 1 < 2) := by omega
  rcases horder with h | h <;> subst h <;>
    simp [resolve, resolveStep, hga, hgab, tokensLead, hlt]

/-- A handler with no parameters that does nothing. -/
def emptyHandler : Handler := ⟨[], false, "", fun _ => none⟩

/-- Witness registry order 1 for C2. -/
def c2Cmds : List (String × Handler) := [("a", emptyHandler), ("a b", emptyHandler)]

/-- Witness for C2 at a concrete registry and input. -/
theorem c2_longest_path_wins_witness :
    resolve ["a", "b", "x"] c2Cmds = some (2, "a b", emptyHandler) :=
  c2_longest_path_wins emptyHandler emptyHandler ["x"] c2Cmds (Or.inl rfl)

/-- C6: an empty token list, or a first token `-h`/`--help`/`help`, bypasses
command matching (the registry is arbitrary) and yields a nil-error result
after writing the root handler's command help when a root handler exists,
and the global help otherwise. -/
theorem c6_help_bypass (a : App) (first : String) (rest : List String)
    (htrig : first = "-h" ∨ first = "--help" ∨ first = "help") :
    (a.root = none →
      run a [] = ⟨.ok, [.globalHelp], false⟩ ∧
      run a (first :: rest) = ⟨.ok, [.globalHelp], false⟩) ∧
    (∀ hr, a.root = some hr →
      run a [] = ⟨.ok, [.commandHelp ""], false⟩ ∧
      run a (first :: rest) = ⟨.ok, [.commandHelp ""], false⟩) := by
  have ht : isGlobalHelpTok first = true := by
    rcases htrig with h | h | h <;> subst h <;> rfl
  refine ⟨fun hroot => ⟨?_, ?_⟩, fun hr hroot => ⟨?_, ?_⟩⟩ <;>
    simp [run, ht, helpResult, hroot]

/-- App with one registered command and no root handler, for witnesses. -/
def appNoRoot : App := ⟨[("add", emptyHandler)], none, ⟨false⟩⟩

/-- App with a root handler, for witnesses. -/
def appWithRoot : App := ⟨[("add", emptyHandler)], some emptyHandler, ⟨false⟩⟩

/-- Witness for C6 at concrete apps and the `-h` trigger. -/
theorem c6_help_bypass_witness :
    (run appNoRoot [] = ⟨.ok, [.globalHelp], false⟩ ∧
      run appNoRoot ["-h"] = ⟨.ok, [.globalHelp], false⟩) ∧
    (run appWithRoot [] = ⟨.ok, [.commandHelp ""], false⟩ ∧
      run appWithRoot ["-h"] = ⟨.ok, [.commandHelp ""], false⟩) :=
  ⟨(c6_help_bypass appNoRoot "-h" [] (Or.inl rfl)).1 rfl,
   (c6_help_bypass appWithRoot "-h" [] (Or.inl rfl)).2 emptyHandler rfl⟩

/-- If some token starts with `--`, the pre-check finds one (the first). -/
theorem findLongTok_mem (raw : List String) (t : String) (ht : t ∈ raw)
    (hl : isLongTok t = true) :
    ∃ u, findLongTok raw = some u ∧ u ∈ raw ∧ isLongTok u = true := by
  induction raw with
  | nil => cases ht
  | cons a rest ih =>
    by_cases ha : isLongTok a = true
    · exact ⟨a, by simp [findLongTok, ha], List.mem_cons_self a rest, ha⟩
    · rcases List.mem_cons.mp ht with h | h
      · subst h; exact absurd hl ha
      · obtain ⟨u, hfind, hmem, hu⟩ := ih h
        exact ⟨u, by simp [findLongTok, ha, hfind], List.mem_cons_of_mem a hmem, hu⟩

/-- If no token starts with `--`, the pre-check finds nothing. -/
theorem findLongTok_none (raw : List String) (h : ∀ t ∈ raw, isLongTok t = false) :
    findLongTok raw = none := by
  induction raw with
  | nil => rfl
  | cons a rest ih =>
    have ha := h a (List.mem_cons_self a rest)
    simpa [findLongTok, ha] using ih fun t ht => h t (List.mem_cons_of_mem a ht)

/-- C3: in pure positional mode, any remaining token beginning with `--`
makes binding fail with an unknown-option error — with no hypothesis on the
token count, so this holds even when the count matches the parameter count;
and only when no token begins with `--` and the counts differ does binding
fail with the argument-count-mismatch error. -/
theorem c3_positional_mode_option_rejection (name : String) (targs : List ParamTy)
    (raw : List String) :
    ((∃ t ∈ raw, isLongTok t = true) →
      ∃ u ∈ raw, isLongTok u = true ∧
        bindPositionalMode name targs raw = .error (.unknownOption u)) ∧
    ((∀ t ∈ raw, isLongTok t = false) → raw.length ≠ targs.length →
      bindPositionalMode name targs raw =
        .error (.argCountMismatch name targs.length raw.length)) := by
  constructor
  · rintro ⟨t, ht, hl⟩
    obtain ⟨u, hfind, hmem, hu⟩ := findLongTok_mem raw t ht hl
    exact ⟨u, hmem, hu, by simp [bindPositionalMode, hfind]⟩
  · intro hall hne
    have hfind := findLongTok_none raw hall
    simp [bindPositionalMode, hfind, hne]

/-- Witness for C3: `--bogus` is rejected as an unknown option even though
the count matches, and a clean token list with the wrong count gives the
count-mismatch error. -/
theorem c3_positional_mode_option_rejection_witness :
    (∃ u ∈ ["--bogus"], isLongTok u = true ∧
      bindPositionalMode "echo" [.prim .string] ["--bogus"] =
        .error (.unknownOption u)) ∧
    bindPositionalMode "echo" [.prim .string] ["x", "y"] =
      .error (.argCountMismatch "echo" 1 2) :=
  ⟨(c3_positional_mode_option_rejection "echo" [.prim .string] ["--bogus"]).1
      ⟨"--bogus", by simp, by decide⟩,
   (c3_positional_mode_option_rejection "echo" [.prim .string] ["x", "y"]).2
      (by decide) (by decide)⟩

/-- C4: in the struct binder's option scan, (a) a `--name=value` token whose
name is not a known long option is silently skipped and the scan continues;
(b) a `--name` token (no `=`) with an unknown name fails with an
unknown-option error; (c) a known non-boolean long option without `=`
consumes the next token as its value, and fails with a missing-option-value
error when no token follows. -/
theorem c4_long_option_scan_behavior (lm sm : List (String × Nat))
    (flds : List Field) (sv : RecordVal) (tok name val : String)
    (rest : List String) (hlong : isLongTok tok = true) :
    (splitEq tok = some (name, val) → lookupStr lm name = none →
      optionScan lm sm flds sv (tok :: rest) = optionScan lm sm flds sv rest) ∧
    (splitEq tok = none → lookupStr lm tok = none →
      optionScan lm sm flds sv (tok :: rest) = .error (.unknownOption tok)) ∧
    (∀ fi, splitEq tok = none → lookupStr lm tok = some fi →
      isBoolFieldAt flds fi = false →
      optionScan lm sm flds sv [tok] = .error (.missingOptionValue tok) ∧
      ∀ v rest2, optionScan lm sm flds sv (tok :: v :: rest2) =
        match parseAndSetField flds sv fi v with
        | .error e => .error (.optionParseFailed tok e)
        | .ok sv2 => optionScan lm sm flds sv2 rest2) := by
  refine ⟨fun hsplit hlook => ?_, fun hsplit hlook => ?_,
    fun fi hsplit hlook hbool => ⟨?_, fun v rest2 => ?_⟩⟩
  · simp [optionScan, hlong, hsplit, hlook]
  · simp [optionScan, hlong, hsplit, hlook]
  · simp [optionScan, hlong, hsplit, hlook, hbool]
  · simp [optionScan, hlong, hsplit, hlook, hbool]

/-- A boolean flag field (long name `--flag`). -/
def flagField : Field := ⟨"Flag", .bool, false, none, some "--flag", none⟩

/-- A string option field (long name `--out`, short `-o`). -/
def outField : Field := ⟨"Out", .string, false, none, some "--out", some "-o"⟩

/-- Witness for C4 on the two-field record `[flagField, outField]`: an
unknown `--bad=1` token is skipped, an unknown `--bad` token errors, and
the known non-boolean `--out` takes the following token as its value. -/
theorem c4_long_option_scan_behavior_witness :
    optionScan [("--flag", 0), ("--out", 1)] [("-o", 1)] [flagField, outField]
        [some (.bool false), some (.str "")] ["--bad=1", "z"] =
      optionScan [("--flag", 0), ("--out", 1)] [("-o", 1)] [flagField, outField]
        [some (.bool false), some (.str "")] ["z"] ∧
    optionScan [("--flag", 0), ("--out", 1)] [("-o", 1)] [flagField, outField]
        [some (.bool false), some (.str "")] ["--bad"] =
      .error (.unknownOption "--bad") ∧
    optionScan [("--flag", 0), ("--out", 1)] [("-o", 1)] [flagField, outField]
        [some (.bool false), some (.str "")] ["--out"] =
      .error (.missingOptionValue "--out") ∧
    optionScan [("--flag", 0), ("--out", 1)] [("-o", 1)] [flagField, outField]
        [some (.bool false), some (.str "")] ["--out", "v"] =
      match parseAndSetField [flagField, outField]
          [some (.bool false), some (.str "")] 1 "v" with
      | .error e => .error (.optionParseFailed "--out" e)
      | .ok sv2 => optionScan [("--flag", 0), ("--out", 1)] [("-o", 1)]
          [flagField, outField] sv2 [] := by
  refine ⟨?_, ?_, ?_, ?_⟩
  · exact (c4_long_option_scan_behavior _ _ _ _ "--bad=1" "--bad" "1" ["z"]
      (by decide)).1 (by decide) (by decide)
  · exact (c4_long_option_scan_behavior _ _ _ _ "--bad" "" "" []
      (by decide)).2.1 (by decide) (by decide)
  · exact ((c4_long_option_scan_behavior _ _ _ _ "--out" "" "" []
      (by decide)).2.2 1 (by decide) (by decide) (by decide)).1
  · exact ((c4_long_option_scan_behavior _ _ _ _ "--out" "" "" []
      (by decide)).2.2 1 (by decide) (by decide) (by decide)).2 "v" []

/-- C10: a `--name=value` token targeting a known boolean field does not use
presence-implies-true flag handling: the value after `=` is parsed as a
boolean and assigned (so `=false` stores `false`), a non-boolean value
fails with a parse error, while the bare `--name` form always stores
`true`. -/
theorem c10_eq_bool_parses_value (lm sm : List (String × Nat))
    (flds : List Field) (sv : RecordVal) (tok name val : String)
    (rest : List String) (fi : Nat) (f : Field)
    (hlong : isLongTok tok = true)
    (hsplit : splitEq tok = some (name, val))
    (hlook : lookupStr lm name = some fi)
    (hfield : flds[fi]? = some f)
    (hty : f.ty = .bool) :
    (∀ b, goParseBool val = some b →
      optionScan lm sm flds sv (tok :: rest) =
        optionScan lm sm flds (sv.set fi (some (.bool b))) rest) ∧
    (goParseBool val = none →
      optionScan lm sm flds sv (tok :: rest) =
        .error (.optionParseFailed name (.malformedValue val .bool))) ∧
    (∀ tok2, isLongTok tok2 = true → splitEq tok2 = none →
      lookupStr lm tok2 = some fi →
      optionScan lm sm flds sv (tok2 :: rest) =
        optionScan lm sm flds (setBoolAt sv fi) rest) := by
  refine ⟨fun b hb => ?_, fun hb => ?_, fun tok2 hlong2 hsplit2 hlook2 => ?_⟩
  · simp [optionScan, hlong, hsplit, hlook, parseAndSetField, hfield, hty,
      parseValue, hb]
  · simp [optionScan, hlong, hsplit, hlook, parseAndSetField, hfield, hty,
      parseValue, hb]
  · have hbool : isBoolFieldAt flds fi = true := by
      simp [isBoolFieldAt, hfield, hty]
      rfl
    simp [optionScan, hlong2, hsplit2, hlook2, hbool]

/-- Witness for C10 on the flag/out record: `--flag=false` stores `false`,
`--flag=notabool` fails with a parse error, and bare `--flag` stores
`true`. -/
theorem c10_eq_bool_parses_value_witness :
    optionScan [("--flag", 0), ("--out", 1)] [("-o", 1)] [flagField, outField]
        [some (.bool false), some (.str "")] ["--flag=false"] =
      optionScan [("--flag", 0), ("--out", 1)] [("-o", 1)] [flagField, outField]
        [some (.bool false), some (.str "")] [] ∧
    optionScan [("--flag", 0), ("--out", 1)] [("-o", 1)] [flagField, outField]
        [some (.bool false), some (.str "")] ["--flag=notabool"] =
      .error (.optionParseFailed "--flag" (.malformedValue "notabool" .bool)) ∧
    optionScan [("--flag", 0), ("--out", 1)] [("-o", 1)] [flagField, outField]
        [some (.bool false), some (.str "")] ["--flag"] =
      optionScan [("--flag", 0), ("--out", 1)] [("-o", 1)] [flagField, outField]
        (setBoolAt [some (.bool false), some (.str "")] 0) [] := by
  refine ⟨?_, ?_, ?_⟩
  · have := (c10_eq_bool_parses_value [("--flag", 0), ("--out", 1)] [("-o", 1)]
      [flagField, outField] [some (.bool false), some (.str "")]
      "--flag=false" "--flag" "false" [] 0 flagField
      (by decide) (by decide) (by decide) (by decide) (by decide)).1 false (by decide)
    simpa using this
  · exact (c10_eq_bool_parses_value [("--flag", 0), ("--out", 1)] [("-o", 1)]
      [flagField, outField] [some (.bool false), some (.str "")]
      "--flag=notabool" "--flag" "notabool" [] 0 flagField
      (by decide) (by decide) (by decide) (by decide) (by decide)).2.1 (by decide)
  · exact (c10_eq_bool_parses_value [("--flag", 0), ("--out", 1)] [("-o", 1)]
      [flagField, outField] [some (.bool false), some (.str "")]
      "--flag=x" "--flag" "x" [] 0 flagField
      (by decide) (by decide) (by decide) (by decide) (by decide)).2.2
      "--flag" (by decide) (by decide) (by decide)

/-- Number of positions in `ps` that have a registered field. -/
def countRegistered (pos : List (Int × Nat)) (ps : List Int) : Nat :=
  (ps.filter (fun p => (lookupInt pos p).isSome)).length

/-- On success, the positional loop consumes exactly one token per
registered position it visits. -/
theorem posLoop_ok_count (pos : List (Int × Nat)) (flds : List Field)
    (raw : List String) :
    ∀ qs sv c sv' c', posLoop pos flds raw sv c qs = .ok (sv', c') →
      c' = c + countRegistered pos qs := by
  intro qs
  induction qs with
  | nil =>
    intro sv c sv' c' h
    simp [posLoop] at h
    simp [countRegistered, h.2]
  | cons p ps ih =>
    intro sv c sv' c' h
    cases hl : lookupInt pos p with
    | none =>
      simp only [posLoop, hl] at h
      have := ih sv c sv' c' h
      simp [countRegistered, List.filter_cons, hl] at this ⊢
      omega
    | some fi =>
      cases hg : raw[c]? with
      | none => simp [posLoop, hl, hg] at h
      | some tok =>
        cases hp : parseAndSetField flds sv fi tok with
        | error e => simp [posLoop, hl, hg, hp] at h
        | ok sv2 =>
          simp only [posLoop, hl, hg, hp] at h
          have := ih sv2 (c + 1) sv' c' h
          simp [countRegistered, List.filter_cons, hl] at this ⊢
          omega

/-- C7: the positional phase walks the positions `0 .. maxPos` in strictly
ascending order (`posPositions` contains exactly the indices between 0 and
the maximum declared index, pairwise increasing); at a registered position
it consumes exactly one token, coercing it into the registered field; a
registered position with no remaining token fails with the
insufficient-args error; an unregistered position (a gap) is skipped,
consuming nothing and raising no error; and on success the tokens consumed
count exactly the registered positions visited. -/
theorem c7_positional_phase (pos : List (Int × Nat)) (flds : List Field)
    (raw : List String) (sv : RecordVal) (c : Nat) (p : Int) (ps : List Int) :
    (∀ q : Int, q ∈ posPositions pos ↔ 0 ≤ q ∧ q ≤ maxKeyI pos) ∧
    (posPositions pos).Pairwise (· < ·) ∧
    (lookupInt pos p = none →
      posLoop pos flds raw sv c (p :: ps) = posLoop pos flds raw sv c ps) ∧
    (∀ fi tok sv2, lookupInt pos p = some fi → raw[c]? = some tok →
      parseAndSetField flds sv fi tok = .ok sv2 →
      posLoop pos flds raw sv c (p :: ps) = posLoop pos flds raw sv2 (c + 1) ps) ∧
    (∀ fi, lookupInt pos p = some fi → raw[c]? = none →
      posLoop pos flds raw sv c (p :: ps) = .error (.insufficientPositional p)) ∧
    (∀ qs sv' c', posLoop pos flds raw sv c qs = .ok (sv', c') →
      c' = c + countRegistered pos qs) := by
  refine ⟨?_, ?_, fun hl => ?_, fun fi tok sv2 hl hg hp => ?_,
    fun fi hl hg => ?_, fun qs => posLoop_ok_count pos flds raw qs sv c⟩
  · intro q
    by_cases hm : maxKeyI pos < 0
    · simp [posPositions, hm]
      omega
    · simp [posPositions, hm, List.mem_map, List.mem_range]
      constructor
      · rintro ⟨k, hk, rfl⟩
        omega
      · rintro ⟨h0, h1⟩
        exact ⟨q.toNat, by omega, by omega⟩
  · by_cases hm : maxKeyI pos < 0
    · simp [posPositions, hm]
    · simp only [posPositions, hm, if_false]
      rw [List.pairwise_map]
      exact (List.pairwise_lt_range _).imp (fun h => Int.ofNat_lt.mpr h)
  · simp [posLoop, hl]
  · simp [posLoop, hl, hg, hp]
  · simp [posLoop, hl, hg]

/-- Positional map with fields at positions 0 and 2 (a gap at 1). -/
def c7Pos : List (Int × Nat) := [(0, 0), (2, 1)]

/-- Fields for the C7 witness: two positional string fields. -/
def c7Flds : List Field :=
  [⟨"A", .string, false, some "0", none, none⟩,
   ⟨"B", .string, false, some "2", none, none⟩]

/-- Initial record for the C7 witness. -/
def c7Sv : RecordVal := [some (.str ""), some (.str "")]

/-- Witness for C7: the gap at position 1 is skipped, position 0 consumes
one token, a registered position without a token errors, and a completed
loop consumed one token per registered position. -/
theorem c7_positional_phase_witness :
    ((1 : Int) ∈ posPositions c7Pos ↔ (0 : Int) ≤ 1 ∧ (1 : Int) ≤ maxKeyI c7Pos) ∧
    posLoop c7Pos c7Flds ["x"] c7Sv 0 [1, 2] = posLoop c7Pos c7Flds ["x"] c7Sv 0 [2] ∧
    posLoop c7Pos c7Flds ["x"] c7Sv 0 [0] =
      posLoop c7Pos c7Flds ["x"] (c7Sv.set 0 (some (.str "x"))) 1 [] ∧
    posLoop c7Pos c7Flds [] c7Sv 0 [0] = .error (.insufficientPositional 0) ∧
    (1 : Nat) = 0 + countRegistered c7Pos [0] := by
  refine ⟨(c7_positional_phase c7Pos c7Flds [] c7Sv 0 0 []).1 1,
    (c7_positional_phase c7Pos c7Flds ["x"] c7Sv 0 1 [2]).2.2.1 (by decide),
    (c7_positional_phase c7Pos c7Flds ["x"] c7Sv 0 0 []).2.2.2.1 0 "x"
      (c7Sv.set 0 (some (.str "x"))) (by decide) (by decide) rfl,
    (c7_positional_phase c7Pos c7Flds [] c7Sv 0 0 []).2.2.2.2.1 0 (by decide)
      (by decide),
    (c7_positional_phase c7Pos c7Flds ["x"] c7Sv 0 0 []).2.2.2.2.2 [0]
      (c7Sv.set 0 (some (.str "x"))) 1 rfl⟩

/-- A handler declaring an error-like result that always returns a non-nil
error. -/
def boomHandler : Handler := ⟨[], true, "", fun _ => some "boom!"⟩

/-- App registering `boomHandler` under `"boom"`, with `ExitOnError` set. -/
def appBoom : App := ⟨[("boom", boomHandler)], none, ⟨true⟩⟩

/-- C5 counterexample: with `ExitOnError` set, a non-nil handler error is
returned to the caller as-is — the outcome is not an exit request and
nothing is written to the error sink, contradicting the claim that handler
errors are propagated identically to binding failures. -/
theorem c5_counterexample :
    run appBoom ["boom"] = ⟨.failed (.handlerErr "boom!"), [], true⟩ ∧
    (run appBoom ["boom"]).outcome ≠ .exited 1 ∧
    (run appBoom ["boom"]).output = [] :=
  ⟨rfl, by decide, rfl⟩

/-- C5 (amended): a non-nil handler error is returned to the caller
unchanged, with no error-sink write and no exit request, regardless of the
`ExitOnError` configuration — unlike binding/resolution failures, it never
passes through `handleError`. -/
theorem c5_handler_error_bypasses_exit (a : App) (first : String)
    (rest : List String) (name : String) (h : Handler) (blen : Nat)
    (parsed : List Arg) (msg : String)
    (htrig : isGlobalHelpTok first = false)
    (hres : resolveSel a (first :: rest) = some (name, h, blen))
    (hhelp : firstIsHelp ((first :: rest).drop blen) = false)
    (hbind : bindArgs name h.targs ((first :: rest).drop blen) = .ok parsed)
    (hexp : h.expectsError = true)
    (hfn : h.fn parsed = some msg) :
    run a (first :: rest) = ⟨.failed (.handlerErr msg), [], true⟩ := by
  simp [run, htrig, hres, runWith, hhelp, hbind, invokeHandler, hexp, hfn]

/-- Witness for the amended C5 at the concrete `appBoom` (which has
`ExitOnError` set). -/
theorem c5_handler_error_bypasses_exit_witness :
    run appBoom ["boom"] = ⟨.failed (.handlerErr "boom!"), [], true⟩ :=
  c5_handler_error_bypasses_exit appBoom "boom" [] "boom" boomHandler 1 []
    "boom!" rfl rfl rfl rfl rfl rfl

/-- C9: whenever resolution/binding fails, `run` returns that failure
through `handleError` with the handler not invoked; conversely the handler
is invoked only when command selection and argument binding both
succeeded. -/
theorem c9_no_invoke_on_failure (a : App) :
    (∀ first rest name h blen e,
      isGlobalHelpTok first = false →
      resolveSel a (first :: rest) = some (name, h, blen) →
      firstIsHelp ((first :: rest).drop blen) = false →
      bindArgs name h.targs ((first :: rest).drop blen) = .error e →
      run a (first :: rest) = errResult a.opts e ∧
        (errResult a.opts e).invoked = false) ∧
    (∀ first rest, isGlobalHelpTok first = false →
      resolveSel a (first :: rest) = none →
      run a (first :: rest) = errResult a.opts (.unknownCommand first) ∧
        (errResult a.opts (.unknownCommand first)).invoked = false) ∧
    (∀ args, (run a args).invoked = true →
      ∃ name h blen parsed, resolveSel a args = some (name, h, blen) ∧
        bindArgs name h.targs (args.drop blen) = .ok parsed) := by
  refine ⟨?_, ?_, ?_⟩
  · intro first rest name h blen e htrig hres hhelp hbind
    refine ⟨?_, rfl⟩
    simp [run, htrig, hres, runWith, hhelp, hbind]
  · intro first rest htrig hres
    refine ⟨?_, rfl⟩
    simp [run, htrig, hres]
  · intro args hinv
    match args with
    | [] =>
      rw [run] at hinv
      cases hroot : a.root <;> simp [helpResult, hroot] at hinv
    | first :: rest =>
      by_cases htrig : isGlobalHelpTok first = true
      · rw [run] at hinv
        cases hroot : a.root <;> simp [htrig, helpResult, hroot] at hinv
      · rw [run] at hinv
        rw [Bool.not_eq_true] at htrig
        cases hres : resolveSel a (first :: rest) with
        | none => simp [htrig, hres, errResult] at hinv
        | some sel =>
          obtain ⟨name, h, blen⟩ := sel
          by_cases hhelp : firstIsHelp ((first :: rest).drop blen) = true
          · simp [htrig, hres, runWith, hhelp] at hinv
          · rw [Bool.not_eq_true] at hhelp
            cases hbind : bindArgs name h.targs ((first :: rest).drop blen) with
            | error e => simp [htrig, hres, runWith, hhelp, hbind, errResult] at hinv
            | ok parsed => exact ⟨name, h, blen, parsed, rfl, hbind⟩

/-- Witness for C9: a concrete arity failure (`add` with one extra token)
returns the count-mismatch error through `handleError`, uninvoked. -/
theorem c9_no_invoke_on_failure_witness :
    run appNoRoot ["add", "2"] =
      errResult appNoRoot.opts (.argCountMismatch "add" 0 1) ∧
    (errResult appNoRoot.opts (.argCountMismatch "add" 0 1)).invoked = false :=
  (c9_no_invoke_on_failure appNoRoot).1 "add" ["2"] "add" emptyHandler 1
    (.argCountMismatch "add" 0 1) rfl rfl rfl rfl

end Cliapp
